import Mathlib

/-!
Verification of the file-organizer script (src/main.py).

The script scans a single directory non-recursively and relocates each
regular file into a subfolder named after a category derived from the
lowercased final extension of the file name, with a dry-run mode and a
thread pool of workers.  This file gives a shallow embedding of the
script: the category table, the categorizer, the mover (organize_file),
and the orchestrator (organize_directory), together with an explicit
model of the directory state it mutates and of the move errors the
Python code can encounter.
-/

namespace FileOrganizer

/-- Embedding of the FILE_CATEGORIES dict of main.py: an ordered table
mapping each category name to its list of lowercase extensions.  Python
dicts preserve insertion order, so iteration order is the definition
order below. -/
def FILE_CATEGORIES : List (String × List String) :=
  [("Images", [".jpg", ".jpeg", ".png", ".gif", ".bmp", ".tiff", ".svg"]),
   ("Documents", [".pdf", ".doc", ".docx", ".txt", ".rtf", ".xls", ".xlsx", ".ppt", ".pptx"]),
   ("Audio", [".mp3", ".wav", ".ogg", ".aac", ".flac"]),
   ("Video", [".mp4", ".mov", ".avi", ".mkv", ".wmv"]),
   ("Archives", [".zip", ".tar", ".gz", ".rar", ".7z"]),
   ("Code", [".py", ".js", ".html", ".css", ".c", ".cpp", ".java", ".php", ".rb", ".go"])]

/-- Embedding of Python str.lower restricted to the ASCII range, which
covers every extension in the table. -/
def strLower (s : String) : String :=
  String.mk (s.data.map Char.toLower)

/-- Index of the last dot in a list of characters, if any: the rfind
step of pathlib suffix computation. -/
def rfindDot (l : List Char) : Option Nat :=
  ((List.range l.length).filter (fun i => l.getD i ' ' == '.')).getLast?

/-- Embedding of pathlib Path.suffix on the file name: the substring
from the last dot, provided that dot is neither the first nor the last
character of the name; otherwise the empty string.  So a.tar.gz has
suffix .gz, while .gitignore and README have suffix empty. -/
def pySuffix (name : String) : String :=
  let l := name.data
  match rfindDot l with
  | none => ""
  | some i => if 0 < i && i + 1 < l.length then String.mk (l.drop i) else ""

/-- Embedding of the loop body of categorize_file: walk the category
table in order and return the first category whose extension list
contains the given extension, else the fallback Other. -/
def firstCategory : List (String × List String) → String → String
  | [], _ => "Other"
  | (category, extensions) :: rest, extension =>
    if extensions.contains extension then category else firstCategory rest extension

/-- Embedding of categorize_file of main.py: lowercase the suffix of
the file name and look it up in FILE_CATEGORIES, first match wins. -/
def categorize_file (name : String) : String :=
  firstCategory FILE_CATEGORIES (strLower (pySuffix name))

/-- State of the target directory: the regular files lying directly in
it, and its subfolders, each with the list of files it contains.  This
is the part of the filesystem the script reads and mutates. -/
structure DirState where
  rootFiles : List String
  folders : List (String × List String)
deriving DecidableEq

/-- Existence test for a subfolder of the target directory, the
category_folder.exists() check of organize_file. -/
def hasDir (s : DirState) (c : String) : Bool :=
  (s.folders.lookup c).isSome

/-- Embedding of category_folder.mkdir(parents=True, exist_ok=True):
create the folder when it is absent, succeed silently and change
nothing when it already exists. -/
def mkdirP (s : DirState) (c : String) : DirState :=
  if hasDir s c then s else { s with folders := s.folders ++ [(c, [])] }

/-- Append a file to the first binding of folder c, leaving the state
unchanged when no such folder exists. -/
def updFolder : List (String × List String) → String → String → List (String × List String)
  | [], _, _ => []
  | (k, v) :: rest, c, f => if k == c then (k, v ++ [f]) :: rest else (k, v) :: updFolder rest c f

/-- Embedding of shutil.move(file, target/category/file) in the case
where it succeeds: the file leaves the root of the target directory and
is appended to the category folder. -/
def moveFile (s : DirState) (f : String) (c : String) : DirState :=
  { rootFiles := s.rootFiles.erase f, folders := updFolder s.folders c f }

/-- Files currently inside subfolder c of the target directory. -/
def folderFiles (s : DirState) (c : String) : List String :=
  (s.folders.lookup c).getD []

/-- Per-file outcome of the mover, the Outcome notion of the spec. -/
inductive Outcome where
  | moved (category : String)
  | wouldMove (category : String)
  | failed (reason : String)
deriving DecidableEq

/-- The two kinds of exception shutil.move can raise in main.py: a
shutil.Error (for example a destination collision rejected by the
primitive), or any other OSError such as a permission or cross-device
error, which is NOT a shutil.Error. -/
inductive MoveErr where
  | shutilError (reason : String)
  | osError (reason : String)
deriving DecidableEq

/-- Events emitted through logging by the script, abstracted from the
formatted strings. -/
inductive LogEvent where
  | createdFolder (folder : String)
  | movedTo (file category : String)
  | failedMove (file reason : String)
  | wouldMoveTo (file category : String)
  | errorOrganizing (file reason : String)
  | noFiles
  | invalidTarget
  | completed
deriving DecidableEq

/-- Embedding of organize_file of main.py.  The oracle err tells, for
each file, whether its shutil.move call succeeds (none) or raises a
given exception.  The result is the new directory state, either the
outcome of the call (Except.ok) or an exception escaping organize_file
(Except.error, raised when the move fails with an exception that is not
a shutil.Error, since the function catches only shutil.Error), and the
log events emitted.  In dry-run mode the folder-creation log line is
still emitted when the folder is absent, but nothing is created. -/
def organize_file (err : String → Option MoveErr) (s : DirState) (f : String)
    (dryRun : Bool) : DirState × Except String Outcome × List LogEvent :=
  let category := categorize_file f
  let exists0 := hasDir s category
  let s1 := if exists0 then s else if dryRun then s else mkdirP s category
  let logs0 : List LogEvent := if exists0 then [] else [LogEvent.createdFolder category]
  if dryRun then
    (s1, Except.ok (Outcome.wouldMove category), logs0 ++ [LogEvent.wouldMoveTo f category])
  else
    match err f with
    | none =>
      (moveFile s1 f category, Except.ok (Outcome.moved category),
        logs0 ++ [LogEvent.movedTo f category])
    | some (MoveErr.shutilError r) =>
      (s1, Except.ok (Outcome.failed r), logs0 ++ [LogEvent.failedMove f r])
    | some (MoveErr.osError r) => (s1, Except.error r, logs0)

/-- Run the per-file tasks over a list of files in the given order,
threading the directory state and collecting for each file the result
of its organize_file call.  This is the task execution underlying both
the one-worker and the many-worker runs; the order argument is the
completion order of the tasks. -/
def runSeq (err : String → Option MoveErr) (dryRun : Bool) :
    DirState → List String → DirState × List (String × Except String Outcome) × List LogEvent
  | s, [] => (s, [], [])
  | s, f :: fs =>
    let r1 := organize_file err s f dryRun
    let rest := runSeq err dryRun r1.1 fs
    (rest.1, (f, r1.2.1) :: rest.2.1, r1.2.2 ++ rest.2.2)

instance : DecidableEq (Except String Outcome) := fun a b =>
  match a, b with
  | Except.ok x, Except.ok y =>
    match decEq x y with
    | isTrue h => isTrue (congrArg Except.ok h)
    | isFalse h => isFalse (fun hh => h (Except.ok.inj hh))
  | Except.error x, Except.error y =>
    match decEq x y with
    | isTrue h => isTrue (congrArg Except.error h)
    | isFalse h => isFalse (fun hh => h (Except.error.inj hh))
  | Except.ok _, Except.error _ => isFalse (fun hh => Except.noConfusion hh)
  | Except.error _, Except.ok _ => isFalse (fun hh => Except.noConfusion hh)

/-- The target path handed to the script: missing, existing but not a
directory, or a directory with the given state. -/
inductive Target where
  | missing
  | notDir
  | dir (s : DirState)
deriving DecidableEq

/-- Result of a run of organize_directory: the exit code of the
process (1 records the sys.exit(1) call on an invalid target), the
final target state, the recorded per-task results, and the log. -/
structure RunResult where
  exitCode : Nat
  target : Target
  outcomes : List (String × Except String Outcome)
  logs : List LogEvent
deriving DecidableEq

/-- Log lines emitted by the orchestrator loop over as_completed: each
task whose future.result() re-raises an exception is caught there and
logged as an error for its file. -/
def boundaryLogs (res : List (String × Except String Outcome)) : List LogEvent :=
  res.filterMap fun p =>
    match p.2 with
    | Except.error e => some (LogEvent.errorOrganizing p.1 e)
    | Except.ok _ => none

/-- Embedding of organize_directory of main.py: exit with code 1 when
the target is not a directory; return after a log line when it holds no
regular files; otherwise run one task per discovered file and catch
task exceptions at the future.result() boundary.  The reference
execution processes tasks in submission order; the workers argument is
carried from the CLI and the pool model below accounts for other
completion orders. -/
def organize_directory (err : String → Option MoveErr) (t : Target) (dryRun : Bool)
    (workers : Nat) : RunResult :=
  match t with
  | Target.dir s =>
    if s.rootFiles.isEmpty then
      { exitCode := 0, target := t, outcomes := [], logs := [LogEvent.noFiles] }
    else
      let r := runSeq err dryRun s s.rootFiles
      { exitCode := 0, target := Target.dir r.1, outcomes := r.2.1,
        logs := r.2.2 ++ boundaryLogs r.2.1 ++ [LogEvent.completed] }
  | _ => { exitCode := 1, target := t, outcomes := [], logs := [LogEvent.invalidTarget] }

/-- Embedding of main() as far as the process exit status goes: main
only logs around its organize_directory call and falls off the end, so
the process exit status is the one recorded by organize_directory (1
for the sys.exit(1) on an invalid target, otherwise 0). -/
def main_run (err : String → Option MoveErr) (t : Target) (dryRun : Bool)
    (workers : Nat) : Nat :=
  (organize_directory err t dryRun workers).exitCode

/-- Directory state after a run, read back out of the result. -/
def resultState (r : RunResult) : DirState :=
  match r.target with
  | Target.dir s => s
  | _ => { rootFiles := [], folders := [] }

/-- Model of the ThreadPoolExecutor with as_completed: a pool of w
workers (w at least 1) completes the submitted per-file tasks in some
order that is a permutation of the submission list; which permutation
is not guaranteed.  Folder creation races are benign because mkdir with
exist_ok is idempotent, and distinct files are moved independently, so
a pool run is runSeq over some completion order. -/
def poolCompletionOrder (w : Nat) (files order : List String) : Prop :=
  1 ≤ w ∧ order.Perm files

/-- The always-succeeding move oracle. -/
def errNone : String → Option MoveErr := fun _ => none

/-- An oracle under which only b.txt fails, with an exception that is
not a shutil.Error. -/
def errBoom : String → Option MoveErr :=
  fun f => if f == "b.txt" then some (MoveErr.osError "boom") else none

/-- The oracle under which every move raises a PermissionError, which
is an OSError but not a shutil.Error. -/
def errPerm : String → Option MoveErr :=
  fun _ => some (MoveErr.osError "Permission denied")

/-- Oracle under which every move raises a shutil.Error destination
collision. -/
def errColl : String → Option MoveErr :=
  fun _ => some (MoveErr.shutilError "Destination path already exists")

/-- A directory with a subfolder but no loose regular file. -/
def noFilesState : DirState :=
  { rootFiles := [], folders := [("Stuff", ["x.bin"])] }

/-- The scenario directory of the spec: five loose files, no
subfolders. -/
def demoState : DirState :=
  { rootFiles := ["photo.JPG", "notes.txt", "archive.tar.gz", "script.py", "mystery.xyz"],
    folders := [] }

/-- A two-file directory used in witnesses. -/
def smallState : DirState :=
  { rootFiles := ["a.py", "b.txt"], folders := [] }

end FileOrganizer

namespace FileOrganizer




/-- If some entry of the category table contains the extension, the
loop of categorize_file returns that entry.  The extension lists of the
table are pairwise disjoint, so at most one entry can contain a given
extension and first match coincides with unique match. -/
lemma firstCategory_of_mem (ext c : String) (exts : List String)
    (hmem : (c, exts) ∈ FILE_CATEGORIES) (hc : ext ∈ exts) :
    firstCategory FILE_CATEGORIES ext = c := by
  fin_cases hmem <;> fin_cases hc <;> decide

/-- If no entry of the category table contains the extension, the loop
of categorize_file falls through to Other. -/
lemma firstCategory_of_not_mem (ext : String)
    (h : ∀ p ∈ FILE_CATEGORIES, ext ∉ p.2) :
    firstCategory FILE_CATEGORIES ext = "Other" := by
  have e1 := h ("Images", [".jpg", ".jpeg", ".png", ".gif", ".bmp", ".tiff", ".svg"])
    (by decide)
  have e2 := h ("Documents",
    [".pdf", ".doc", ".docx", ".txt", ".rtf", ".xls", ".xlsx", ".ppt", ".pptx"]) (by decide)
  have e3 := h ("Audio", [".mp3", ".wav", ".ogg", ".aac", ".flac"]) (by decide)
  have e4 := h ("Video", [".mp4", ".mov", ".avi", ".mkv", ".wmv"]) (by decide)
  have e5 := h ("Archives", [".zip", ".tar", ".gz", ".rar", ".7z"]) (by decide)
  have e6 := h ("Code",
    [".py", ".js", ".html", ".css", ".c", ".cpp", ".java", ".php", ".rb", ".go"]) (by decide)
  simp only [FILE_CATEGORIES, firstCategory, List.contains, List.elem_eq_mem] at *
  simp [e1, e2, e3, e4, e5, e6]

/-- The extension lists of the table share no extension across
categories. -/
lemma file_categories_disjoint :
    FILE_CATEGORIES.Pairwise (fun p q => ∀ e, e ∈ p.2 → e ∉ q.2) := by
  decide

/-- C1: categorize_file returns the first category in table-definition
order whose extension list contains the lowercased extension of the
file name, and Other when no category matches; since the extension
lists are pairwise disjoint (fourth conjunct), the first matching
category is the unique matching category, so the first conjunct states
exactly the first-match contract.  A name with no extension has empty
suffix and falls through to Other (third conjunct). -/
theorem categorize_first_match_or_other (name : String) :
    (∀ c exts, (c, exts) ∈ FILE_CATEGORIES →
      strLower (pySuffix name) ∈ exts → categorize_file name = c) ∧
    ((∀ p ∈ FILE_CATEGORIES, strLower (pySuffix name) ∉ p.2) →
      categorize_file name = "Other") ∧
    (pySuffix name = "" → categorize_file name = "Other") ∧
    FILE_CATEGORIES.Pairwise (fun p q => ∀ e, e ∈ p.2 → e ∉ q.2) := by
  refine ⟨?_, ?_, ?_, file_categories_disjoint⟩
  · intro c exts hmem hc
    exact firstCategory_of_mem _ c exts hmem hc
  · intro h
    exact firstCategory_of_not_mem _ h
  · intro h
    have : strLower (pySuffix name) = "" := by rw [h]; rfl
    unfold categorize_file
    rw [this]
    decide

/-- Witness for C1 at concrete inputs: notes.txt is matched by the
Documents entry, and README, having no extension, is categorized as
Other. -/
theorem categorize_first_match_or_other_witness :
    categorize_file "notes.txt" = "Documents" ∧ categorize_file "README" = "Other" :=
  ⟨(categorize_first_match_or_other "notes.txt").1 "Documents"
      [".pdf", ".doc", ".docx", ".txt", ".rtf", ".xls", ".xlsx", ".ppt", ".pptx"]
      (by decide) (by decide),
   (categorize_first_match_or_other "README").2.2.1 (by decide)⟩

/-- C10: categorization consults only the final suffix of the name:
two names with the same pathlib suffix receive the same category; in
particular a.tar.gz is categorized by .gz alone, landing in Archives,
and a dotfile such as .gitignore has empty suffix and lands in
Other. -/
theorem categorize_depends_only_on_suffix (n1 n2 : String)
    (h : pySuffix n1 = pySuffix n2) :
    categorize_file n1 = categorize_file n2 ∧
    pySuffix "a.tar.gz" = ".gz" ∧
    categorize_file "a.tar.gz" = "Archives" ∧
    pySuffix ".gitignore" = "" ∧
    categorize_file ".gitignore" = "Other" := by
  refine ⟨?_, by decide, by decide, by decide, by decide⟩
  unfold categorize_file
  rw [h]

/-- Witness for C10: a.tar.gz and b.gz share the suffix .gz and are
categorized identically. -/
theorem categorize_depends_only_on_suffix_witness :
    categorize_file "a.tar.gz" = categorize_file "b.gz" :=
  (categorize_depends_only_on_suffix "a.tar.gz" "b.gz" (by decide)).1

lemma lookup_append (l1 l2 : List (String × List String)) (c : String) :
    (l1 ++ l2).lookup c =
      match l1.lookup c with
      | some v => some v
      | none => l2.lookup c := by
  induction l1 with
  | nil => simp
  | cons kv rest ih =>
    obtain ⟨k, v⟩ := kv
    by_cases h : (c == k) = true
    · simp [List.lookup_cons, h]
    · simp only [Bool.not_eq_true] at h
      simp [List.lookup_cons, h, ih]

lemma lookup_updFolder_self (l : List (String × List String)) (c f : String) :
    (updFolder l c f).lookup c = (l.lookup c).map (fun v => v ++ [f]) := by
  induction l with
  | nil => simp [updFolder]
  | cons kv rest ih =>
    obtain ⟨k, v⟩ := kv
    by_cases h : (k == c) = true
    · have hck : (c == k) = true := by
        simp only [beq_iff_eq] at h ⊢
        exact h.symm
      simp [updFolder, h, List.lookup_cons, hck]
    · have hck : (c == k) = false := by
        simp only [beq_iff_eq, beq_eq_false_iff_ne, ne_eq] at *
        exact fun hh => h hh.symm
      simp [updFolder, h, List.lookup_cons, hck, ih]

lemma lookup_updFolder_ne (l : List (String × List String)) (c c' f : String)
    (hne : c' ≠ c) :
    (updFolder l c f).lookup c' = l.lookup c' := by
  induction l with
  | nil => simp [updFolder]
  | cons kv rest ih =>
    obtain ⟨k, v⟩ := kv
    by_cases h : (k == c) = true
    · have hck : (c' == k) = false := by
        simp only [beq_iff_eq] at h
        simp [beq_eq_false_iff_ne, h, hne]
      simp [updFolder, h, List.lookup_cons, hck]
    · by_cases h2 : (c' == k) = true
      · simp [updFolder, h, List.lookup_cons, h2]
      · simp only [Bool.not_eq_true] at h2
        simp [updFolder, h, List.lookup_cons, h2, ih]

lemma rootFiles_mkdirP (s : DirState) (c : String) :
    (mkdirP s c).rootFiles = s.rootFiles := by
  unfold mkdirP
  split <;> rfl

lemma lookup_mkdirP_self (s : DirState) (c : String) :
    (mkdirP s c).folders.lookup c = some (folderFiles s c) := by
  unfold mkdirP hasDir folderFiles
  cases hl : s.folders.lookup c with
  | some v => simp [hl]
  | none => simp [hl, lookup_append, List.lookup_cons]

lemma folderFiles_mkdirP (s : DirState) (c c' : String) :
    folderFiles (mkdirP s c) c' = folderFiles s c' := by
  unfold mkdirP hasDir folderFiles
  cases hl : s.folders.lookup c
  · simp only [hl, Option.isSome_none, Bool.false_eq_true, if_false]
    cases hl2 : s.folders.lookup c' with
    | some v => simp [lookup_append, hl2]
    | none =>
      by_cases h : (c' == c) = true
      · have : c' = c := by simpa [beq_iff_eq] using h
        subst this
        simp [lookup_append, hl2, List.lookup_cons, hl] at *
      · simp only [Bool.not_eq_true] at h
        simp [lookup_append, hl2, List.lookup_cons, h]
  · simp [hl]

lemma hasDir_mkdirP (s : DirState) (c c' : String) :
    hasDir (mkdirP s c) c' = (hasDir s c' || (c == c')) := by
  unfold mkdirP
  by_cases h : hasDir s c
  · simp only [h, if_true]
    by_cases h2 : (c == c') = true
    · have : c = c' := by simpa [beq_iff_eq] using h2
      subst this
      simp [h, h2]
    · simp only [Bool.not_eq_true] at h2
      simp [h2]
  · simp only [Bool.not_eq_true] at h
    simp only [h, Bool.false_eq_true, if_false]
    unfold hasDir at *
    cases hl2 : s.folders.lookup c' with
    | some v => simp [lookup_append, hl2]
    | none =>
      by_cases h2 : (c' == c) = true
      · have : c' = c := by simpa [beq_iff_eq] using h2
        subst this
        simp [lookup_append, hl2, List.lookup_cons, beq_iff_eq]
      · simp only [Bool.not_eq_true] at h2
        have h3 : (c == c') = false := by
          simp only [beq_eq_false_iff_ne, ne_eq] at *
          exact fun hh => h2 hh.symm
        simp [lookup_append, hl2, List.lookup_cons, h2, h3]

lemma hasDir_moveFile (s : DirState) (f c c' : String) :
    hasDir (moveFile s f c) c' = hasDir s c' := by
  unfold moveFile hasDir
  by_cases h : c' = c
  · subst h
    simp [lookup_updFolder_self]
  · simp [lookup_updFolder_ne _ _ _ _ h]

/-- The guarded folder creation of organize_file coincides with an
unconditional mkdir with exist_ok, since the latter is a no-op on an
existing folder. -/
lemma organize_file_state (err : String → Option MoveErr) (s : DirState) (f : String) :
    (organize_file err s f false).1 =
      if (err f).isNone then
        moveFile (mkdirP s (categorize_file f)) f (categorize_file f)
      else mkdirP s (categorize_file f) := by
  cases he : err f with
  | none => cases h : hasDir s (categorize_file f) <;> simp [organize_file, mkdirP, h, he]
  | some e =>
    cases e <;> cases h : hasDir s (categorize_file f) <;>
      simp [organize_file, mkdirP, h, he]

/-- Result of a single non-dry organize_file call, as a function of
the move oracle. -/
lemma organize_file_result (err : String → Option MoveErr) (s : DirState) (f : String) :
    (organize_file err s f false).2.1 =
      match err f with
      | none => Except.ok (Outcome.moved (categorize_file f))
      | some (MoveErr.shutilError r) => Except.ok (Outcome.failed r)
      | some (MoveErr.osError r) => Except.error r := by
  cases he : err f with
  | none => cases h : hasDir s (categorize_file f) <;> simp [organize_file, h, he]
  | some e =>
    cases e <;> cases h : hasDir s (categorize_file f) <;> simp [organize_file, h, he]

lemma organize_file_dry_state (err : String → Option MoveErr) (s : DirState) (f : String) :
    (organize_file err s f true).1 = s := by
  cases h : hasDir s (categorize_file f) <;> simp [organize_file, h]

lemma organize_file_dry_result (err : String → Option MoveErr) (s : DirState) (f : String) :
    (organize_file err s f true).2.1 =
      Except.ok (Outcome.wouldMove (categorize_file f)) := by
  cases h : hasDir s (categorize_file f) <;> simp [organize_file, h]

lemma organize_file_dry_log (err : String → Option MoveErr) (s : DirState) (f : String) :
    LogEvent.wouldMoveTo f (categorize_file f) ∈ (organize_file err s f true).2.2 := by
  cases h : hasDir s (categorize_file f) <;> simp [organize_file, h]

lemma step_rootFiles (err : String → Option MoveErr) (s : DirState) (f : String) :
    (organize_file err s f false).1.rootFiles =
      if (err f).isNone then s.rootFiles.erase f else s.rootFiles := by
  rw [organize_file_state]
  cases he : (err f).isNone <;> simp [moveFile, rootFiles_mkdirP]

lemma step_folderFiles (err : String → Option MoveErr) (s : DirState) (f c : String) :
    folderFiles (organize_file err s f false).1 c =
      if ((err f).isNone && (categorize_file f == c)) then folderFiles s c ++ [f]
      else folderFiles s c := by
  rw [organize_file_state]
  cases he : (err f).isNone
  · simp [folderFiles_mkdirP]
  · simp only [if_true, Bool.true_and]
    by_cases hc : categorize_file f = c
    · subst hc
      simp only [beq_self_eq_true, if_true]
      unfold moveFile folderFiles
      simp [lookup_updFolder_self, lookup_mkdirP_self, folderFiles]
    · have hb : (categorize_file f == c) = false := by simp [beq_eq_false_iff_ne, hc]
      simp only [hb, Bool.false_eq_true, if_false]
      unfold moveFile folderFiles
      rw [lookup_updFolder_ne _ _ _ _ (fun hh => hc hh.symm)]
      have := folderFiles_mkdirP s (categorize_file f) c
      unfold folderFiles at this
      exact this

lemma step_hasDir (err : String → Option MoveErr) (s : DirState) (f c : String) :
    hasDir (organize_file err s f false).1 c =
      (hasDir s c || (categorize_file f == c)) := by
  rw [organize_file_state]
  cases he : (err f).isNone <;>
    simp [hasDir_moveFile, hasDir_mkdirP]

/-- Root files after a non-dry run over a list of tasks: every file
whose move succeeds is erased from the root. -/
lemma runSeq_rootFiles (err : String → Option MoveErr) (fs : List String) :
    ∀ s : DirState, (runSeq err false s fs).1.rootFiles =
      s.rootFiles.diff (fs.filter (fun f => (err f).isNone)) := by
  induction fs with
  | nil => intro s; simp [runSeq]
  | cons f fs ih =>
    intro s
    show (runSeq err false (organize_file err s f false).1 fs).1.rootFiles = _
    rw [ih, step_rootFiles]
    cases he : (err f).isNone <;>
      simp [List.filter_cons, he, List.diff_cons]

/-- Contents of folder c after a non-dry run over a list of tasks: the
previous contents followed by the successfully moved files of category
c, in task order. -/
lemma runSeq_folderFiles (err : String → Option MoveErr) (fs : List String) :
    ∀ (s : DirState) (c : String), folderFiles (runSeq err false s fs).1 c =
      folderFiles s c ++ fs.filter (fun f => (err f).isNone && (categorize_file f == c)) := by
  induction fs with
  | nil => intro s c; simp [runSeq]
  | cons f fs ih =>
    intro s c
    show folderFiles (runSeq err false (organize_file err s f false).1 fs).1 c = _
    rw [ih, step_folderFiles]
    cases he : ((err f).isNone && (categorize_file f == c)) <;>
      simp [List.filter_cons, he]

/-- Folder existence after a non-dry run over a list of tasks: a
category folder exists afterwards exactly when it existed before or
some task file has that category, whether or not its move failed. -/
lemma runSeq_hasDir (err : String → Option MoveErr) (fs : List String) :
    ∀ (s : DirState) (c : String), hasDir (runSeq err false s fs).1 c =
      (hasDir s c || fs.any (fun f => categorize_file f == c)) := by
  induction fs with
  | nil => intro s c; simp [runSeq]
  | cons f fs ih =>
    intro s c
    show hasDir (runSeq err false (organize_file err s f false).1 fs).1 c = _
    rw [ih, step_hasDir]
    simp [Bool.or_assoc]

/-- A dry run leaves the directory state untouched. -/
lemma runSeq_dry_state (err : String → Option MoveErr) (fs : List String) :
    ∀ s : DirState, (runSeq err true s fs).1 = s := by
  induction fs with
  | nil => intro s; rfl
  | cons f fs ih =>
    intro s
    show (runSeq err true (organize_file err s f true).1 fs).1 = s
    rw [ih, organize_file_dry_state]

/-- A dry run records a would-move outcome naming the planned category
for every file, in order. -/
lemma runSeq_dry_outcomes (err : String → Option MoveErr) (fs : List String) :
    ∀ s : DirState, (runSeq err true s fs).2.1 =
      fs.map (fun f => (f, Except.ok (Outcome.wouldMove (categorize_file f)))) := by
  induction fs with
  | nil => intro s; rfl
  | cons f fs ih =>
    intro s
    show ((f, (organize_file err s f true).2.1) ::
        (runSeq err true (organize_file err s f true).1 fs).2.1) = _
    rw [ih, organize_file_dry_result]
    rfl

/-- A dry run logs the planned destination of every file. -/
lemma runSeq_dry_logs (err : String → Option MoveErr) (fs : List String) :
    ∀ (s : DirState) (f : String), f ∈ fs →
      LogEvent.wouldMoveTo f (categorize_file f) ∈ (runSeq err true s fs).2.2 := by
  induction fs with
  | nil => intro s f h; cases h
  | cons g fs ih =>
    intro s f h
    show _ ∈ (organize_file err s g true).2.2 ++
        (runSeq err true (organize_file err s g true).1 fs).2.2
    rcases List.mem_cons.mp h with rfl | h2
    · exact List.mem_append_left _ (organize_file_dry_log err s f)
    · exact List.mem_append_right _ (ih _ f h2)

/-- Every task file is paired with exactly one recorded result, in
submission order, whatever the oracle does. -/
lemma runSeq_outcomes_fst (err : String → Option MoveErr) (dryRun : Bool)
    (fs : List String) :
    ∀ s : DirState, (runSeq err dryRun s fs).2.1.map Prod.fst = fs := by
  induction fs with
  | nil => intro s; rfl
  | cons f fs ih =>
    intro s
    show ((f, (organize_file err s f dryRun).2.1) ::
        (runSeq err dryRun (organize_file err s f dryRun).1 fs).2.1).map Prod.fst = f :: fs
    simp [ih]

/-- The state after organize_directory on a directory is the state
after running all the per-file tasks; when there is no file the run
returns at once, which coincides with running zero tasks. -/
lemma organize_dir_state (err : String → Option MoveErr) (s : DirState) (dryRun : Bool)
    (workers : Nat) :
    resultState (organize_directory err (Target.dir s) dryRun workers) =
      (runSeq err dryRun s s.rootFiles).1 := by
  by_cases h : s.rootFiles.isEmpty
  · have hnil : s.rootFiles = [] := by simpa using h
    simp [organize_directory, resultState, h, hnil, runSeq]
  · simp [organize_directory, resultState, h]

/-- The recorded task results of organize_directory are those of the
per-file task run. -/
lemma organize_dir_outcomes (err : String → Option MoveErr) (s : DirState) (dryRun : Bool)
    (workers : Nat) :
    (organize_directory err (Target.dir s) dryRun workers).outcomes =
      (runSeq err dryRun s s.rootFiles).2.1 := by
  by_cases h : s.rootFiles.isEmpty
  · have hnil : s.rootFiles = [] := by simpa using h
    simp [organize_directory, h, hnil, runSeq]
  · simp [organize_directory, h]

/-- On a directory target, organize_directory always records exit code
zero, whatever the per-file oracle does. -/
lemma organize_dir_exit (err : String → Option MoveErr) (s : DirState) (dryRun : Bool)
    (workers : Nat) :
    (organize_directory err (Target.dir s) dryRun workers).exitCode = 0 := by
  by_cases h : s.rootFiles.isEmpty <;> simp [organize_directory, h]

lemma list_diff_self (l : List String) : l.diff l = [] := by
  induction l with
  | nil => rfl
  | cons a t ih =>
    rw [List.diff_cons, List.erase_cons_head]
    exact ih

lemma perm_any (p : String → Bool) {l1 l2 : List String} (h : l1.Perm l2) :
    l1.any p = l2.any p := by
  induction h with
  | nil => rfl
  | cons x _ ih => simp [List.any_cons, ih]
  | swap x y l =>
    simp only [List.any_cons]
    rw [← Bool.or_assoc, ← Bool.or_assoc, Bool.or_comm (p y) (p x)]
  | trans _ _ ih1 ih2 => exact ih1.trans ih2

/-- C2: completion invariant.  For a directory holding only loose
regular files and no subfolders, a non-dry run in which no move fails
leaves no file directly in the target directory, creates exactly the
category folders matched by at least one file, and fills each folder
with exactly the files of its category; in particular the five-file
scenario directory ends as Images/photo.JPG, Documents/notes.txt,
Archives/archive.tar.gz, Code/script.py and Other/mystery.xyz. -/
theorem completion_invariant (err : String → Option MoveErr) (s : DirState)
    (workers : Nat) (hfolders : s.folders = [])
    (herr : ∀ f ∈ s.rootFiles, err f = none) :
    (resultState (organize_directory err (Target.dir s) false workers)).rootFiles = [] ∧
    (∀ c, hasDir (resultState (organize_directory err (Target.dir s) false workers)) c =
      s.rootFiles.any (fun f => categorize_file f == c)) ∧
    (∀ c, folderFiles (resultState (organize_directory err (Target.dir s) false workers)) c =
      s.rootFiles.filter (fun f => categorize_file f == c)) ∧
    resultState (organize_directory errNone (Target.dir demoState) false 4) =
      DirState.mk []
        [("Images", ["photo.JPG"]), ("Documents", ["notes.txt"]),
         ("Archives", ["archive.tar.gz"]), ("Code", ["script.py"]),
         ("Other", ["mystery.xyz"])] := by
  rw [organize_dir_state]
  refine ⟨?_, ?_, ?_, by decide⟩
  · rw [runSeq_rootFiles]
    have hf : s.rootFiles.filter (fun f => (err f).isNone) = s.rootFiles :=
      List.filter_eq_self.mpr (fun f hf => by rw [herr f hf]; rfl)
    rw [hf]
    exact list_diff_self s.rootFiles
  · intro c
    rw [runSeq_hasDir]
    have : hasDir s c = false := by
      unfold hasDir
      rw [hfolders]
      rfl
    rw [this, Bool.false_or]
  · intro c
    rw [runSeq_folderFiles]
    have h0 : folderFiles s c = [] := by
      unfold folderFiles
      rw [hfolders]
      rfl
    have hq : s.rootFiles.filter (fun f => (err f).isNone && (categorize_file f == c)) =
        s.rootFiles.filter (fun f => categorize_file f == c) :=
      List.filter_congr (fun f hf => by rw [herr f hf]; rfl)
    rw [h0, hq, List.nil_append]

/-- Witness for C2: the scenario directory, the always-succeeding
oracle, four workers. -/
theorem completion_invariant_witness :
    (resultState (organize_directory errNone (Target.dir demoState) false 4)).rootFiles = [] :=
  (completion_invariant errNone demoState 4 rfl (fun f _ => rfl)).1

/-- C3: order independence.  For any two pool executions of the same
task list, with any worker counts of at least one and any completion
orders, the final filesystem state is the same: the same loose files at
the root, the same multiset of files in every category folder, and the
same set of category folders.  One worker degenerates to the
sequential run, so sequential and pooled execution agree. -/
theorem worker_count_irrelevant (err : String → Option MoveErr) (s : DirState)
    (files o1 o2 : List String) (w1 w2 : Nat)
    (h1 : poolCompletionOrder w1 files o1) (h2 : poolCompletionOrder w2 files o2) :
    (runSeq err false s o1).1.rootFiles = (runSeq err false s o2).1.rootFiles ∧
    (∀ c, ((folderFiles (runSeq err false s o1).1 c : Multiset String) =
      (folderFiles (runSeq err false s o2).1 c : Multiset String))) ∧
    (∀ c, hasDir (runSeq err false s o1).1 c = hasDir (runSeq err false s o2).1 c) := by
  have hp : o1.Perm o2 := h1.2.trans h2.2.symm
  refine ⟨?_, ?_, ?_⟩
  · rw [runSeq_rootFiles, runSeq_rootFiles]
    exact List.Perm.diff_left _ (hp.filter _)
  · intro c
    rw [runSeq_folderFiles, runSeq_folderFiles]
    exact Multiset.coe_eq_coe.mpr (List.Perm.append_left _ (hp.filter _))
  · intro c
    rw [runSeq_hasDir, runSeq_hasDir]
    rw [perm_any _ hp]

/-- Witness for C3: two files executed once in submission order by one
worker and once in the reversed completion order by four workers end in
the same state. -/
theorem worker_count_irrelevant_witness :
    (runSeq errNone false smallState ["a.py", "b.txt"]).1.rootFiles =
      (runSeq errNone false smallState ["b.txt", "a.py"]).1.rootFiles :=
  (worker_count_irrelevant errNone smallState ["a.py", "b.txt"]
    ["a.py", "b.txt"] ["b.txt", "a.py"] 1 4
    ⟨by decide, by decide⟩ ⟨by decide, by decide⟩).1

/-- C4: dry-run frame.  A dry-run invocation on a valid directory
leaves the target state byte-for-byte unchanged, and every discovered
file is recorded with a would-move outcome naming its planned category
and logged with a would-move line naming that category. -/
theorem dry_run_frame (err : String → Option MoveErr) (s : DirState) (workers : Nat) :
    (organize_directory err (Target.dir s) true workers).target = Target.dir s ∧
    (organize_directory err (Target.dir s) true workers).outcomes =
      s.rootFiles.map (fun f => (f, Except.ok (Outcome.wouldMove (categorize_file f)))) ∧
    (∀ f ∈ s.rootFiles, LogEvent.wouldMoveTo f (categorize_file f) ∈
      (organize_directory err (Target.dir s) true workers).logs) := by
  by_cases h : s.rootFiles.isEmpty
  · have hnil : s.rootFiles = [] := by simpa using h
    simp [organize_directory, h, hnil]
  · refine ⟨?_, ?_, ?_⟩
    · simp [organize_directory, h, runSeq_dry_state]
    · rw [organize_dir_outcomes, runSeq_dry_outcomes]
    · intro f hf
      have hm := runSeq_dry_logs err s.rootFiles s f hf
      simp only [organize_directory, h, Bool.false_eq_true, if_false]
      exact List.mem_append_left _ (List.mem_append_left _ hm)

/-- Witness for C4: the two-file directory in dry-run mode keeps its
state and logs the planned move of a.py. -/
theorem dry_run_frame_witness :
    LogEvent.wouldMoveTo "a.py" (categorize_file "a.py") ∈
      (organize_directory errNone (Target.dir smallState) true 4).logs :=
  (dry_run_frame errNone smallState 4).2.2 "a.py" (by decide)

/-- C5: partial-failure semantics.  Whatever the per-file oracle does,
a run over a valid directory exits with code zero, records a result
for every discovered file in submission order (no task is skipped and
the run never aborts), and every task that raised is caught at the
task boundary and logged as an error for its file. -/
theorem per_file_failures_logged_only (err : String → Option MoveErr) (s : DirState)
    (dryRun : Bool) (workers : Nat) :
    main_run err (Target.dir s) dryRun workers = 0 ∧
    (organize_directory err (Target.dir s) dryRun workers).outcomes.map Prod.fst =
      s.rootFiles ∧
    (∀ f e, (f, Except.error e) ∈ (organize_directory err (Target.dir s) dryRun workers).outcomes →
      LogEvent.errorOrganizing f e ∈ (organize_directory err (Target.dir s) dryRun workers).logs) := by
  refine ⟨organize_dir_exit err s dryRun workers, ?_, ?_⟩
  · rw [organize_dir_outcomes, runSeq_outcomes_fst]
  · intro f e hmem
    by_cases h : s.rootFiles.isEmpty
    · simp [organize_directory, h] at hmem
    · have hb : LogEvent.errorOrganizing f e ∈
          boundaryLogs (organize_directory err (Target.dir s) dryRun workers).outcomes :=
        List.mem_filterMap.mpr ⟨(f, Except.error e), hmem, rfl⟩
      rw [organize_dir_outcomes] at hb
      simp only [organize_directory, h, Bool.false_eq_true, if_false]
      exact List.mem_append_left _ (List.mem_append_right _ hb)

/-- Witness for C5: with the oracle that makes the move of b.txt raise
an OSError, the run still exits zero and the failure of b.txt is
logged at the task boundary. -/
theorem per_file_failures_logged_only_witness :
    main_run errBoom (Target.dir smallState) false 4 = 0 ∧
    LogEvent.errorOrganizing "b.txt" "boom" ∈
      (organize_directory errBoom (Target.dir smallState) false 4).logs :=
  ⟨(per_file_failures_logged_only errBoom smallState false 4).1,
   (per_file_failures_logged_only errBoom smallState false 4).2.2 "b.txt" "boom" (by decide)⟩

/-- Counterexample to C6 as stated: when shutil.move raises a
PermissionError, organize_file does not return a Failed outcome; the
exception escapes organize_file (the except clause there catches only
shutil.Error), so the Mover raises rather than reporting Failed. -/
theorem mover_raises_on_os_error :
    (organize_file errPerm smallState "a.py" false).2.1 =
      Except.error "Permission denied" := by
  decide

/-- C6 amended: the Mover itself catches exactly the shutil.Error
failures of the move primitive (for example a destination collision it
rejects) and reports them as a Failed outcome for that single file,
leaving the file in place with only the category folder ensured; other
failures escape organize_file and are handled at the orchestrator
boundary. -/
theorem mover_catches_shutil_error (err : String → Option MoveErr) (s : DirState)
    (f r : String) (h : err f = some (MoveErr.shutilError r)) :
    (organize_file err s f false).2.1 = Except.ok (Outcome.failed r) ∧
    (organize_file err s f false).1 = mkdirP s (categorize_file f) := by
  constructor
  · rw [organize_file_result, h]
  · rw [organize_file_state, h]
    rfl

/-- Witness for the amended C6: a collision rejected by shutil.move is
reported as Failed by organize_file itself. -/
theorem mover_catches_shutil_error_witness :
    (organize_file errColl smallState "a.py" false).2.1 =
      Except.ok (Outcome.failed "Destination path already exists") :=
  (mover_catches_shutil_error errColl smallState "a.py"
    "Destination path already exists" rfl).1

/-- C7: an invalid target, missing or not a directory, terminates the
run at once with exit code one, before any file is touched or folder
created: the target is left exactly as it was, no outcome is recorded,
and the only log line reports the invalid target. -/
theorem invalid_target_exits_nonzero (err : String → Option MoveErr) (dryRun : Bool)
    (workers : Nat) :
    organize_directory err Target.missing dryRun workers =
      RunResult.mk 1 Target.missing [] [LogEvent.invalidTarget] ∧
    organize_directory err Target.notDir dryRun workers =
      RunResult.mk 1 Target.notDir [] [LogEvent.invalidTarget] ∧
    main_run err Target.missing dryRun workers = 1 ∧
    main_run err Target.notDir dryRun workers = 1 :=
  ⟨rfl, rfl, rfl, rfl⟩

/-- C8: a valid directory with no regular file among its immediate
children is a successful no-op: exit code zero, a log line that there
is nothing to organize, no outcome recorded, and the target state,
subfolders included, unchanged. -/
theorem empty_directory_noop (err : String → Option MoveErr) (dryRun : Bool)
    (workers : Nat) (s : DirState) (h : s.rootFiles = []) :
    organize_directory err (Target.dir s) dryRun workers =
      RunResult.mk 0 (Target.dir s) [] [LogEvent.noFiles] ∧
    main_run err (Target.dir s) dryRun workers = 0 := by
  have he : s.rootFiles.isEmpty = true := by simp [h]
  exact ⟨by simp [organize_directory, he], by simp [main_run, organize_directory, he]⟩

/-- Witness for C8: a directory holding only a subfolder. -/
theorem empty_directory_noop_witness :
    organize_directory errNone (Target.dir noFilesState) false 4 =
      RunResult.mk 0 (Target.dir noFilesState) [] [LogEvent.noFiles] :=
  (empty_directory_noop errNone false 4 noFilesState rfl).1

/-- C9: folder creation is idempotent.  Creating a destination folder
that already exists changes nothing and raises no error (mkdirP is a
total function), a second redundant creation request is absorbed by
the first, and after a creation request the folder exists, so a
concurrent duplicate request succeeds silently. -/
theorem mkdir_idempotent (s : DirState) (c : String) :
    (hasDir s c = true → mkdirP s c = s) ∧
    mkdirP (mkdirP s c) c = mkdirP s c ∧
    hasDir (mkdirP s c) c = true := by
  have h1 : ∀ t : DirState, hasDir t c = true → mkdirP t c = t := by
    intro t h
    unfold mkdirP
    simp [h]
  have h3 : hasDir (mkdirP s c) c = true := by
    rw [hasDir_mkdirP]
    simp
  exact ⟨h1 s, h1 _ h3, h3⟩

/-- Witness for C9: a state already holding the Code folder is
unchanged by a creation request for it. -/
theorem mkdir_idempotent_witness :
    mkdirP (DirState.mk [] [("Code", [])]) "Code" = DirState.mk [] [("Code", [])] :=
  (mkdir_idempotent (DirState.mk [] [("Code", [])]) "Code").1 (by decide)

end FileOrganizer
